import Mathlib

/-!
Verification of the ScreenDeck satellite protocol bridge and the surface
registry of midi-relay-hub, as a shallow embedding of the JavaScript source
(`screendeckSatellite.js` and the surfaces section of `api.js`).

Conventions used throughout:
* JavaScript `undefined` is modelled by `Option.none`.
* JavaScript `Set` objects are modelled by duplicate-free `List String`
  with guarded insertion (`setAdd`) and filtering deletion (`setDelete`).
* Machine integers are modelled by `Int`; the values involved (grid
  coordinates, key indices, ports, delays) are far below 2^53, where
  JavaScript numbers behave as exact integers.
* Side effects (socket writes, surface-registry calls, window IPC) are
  recorded in an append-only trace carried inside the state.
-/

set_option maxHeartbeats 1000000

namespace MidiRelayHub

/-- Values stored in a parsed parameter map: `parseParams` assigns either the
JavaScript literal `true` (for a bare flag token) or a string (for a
`KEY=VALUE` token). -/
inductive ParamVal
  | boolTrue
  | str (v : String)
deriving DecidableEq, Repr

abbrev Params := List (String × ParamVal)

/-- Property lookup on a parameter object; `none` plays the role of
`undefined`. Keys are unique by construction of `setParam`. -/
def getParam (m : Params) (k : String) : Option ParamVal :=
  (m.find? (fun p => p.1 == k)).map (fun p => p.2)

/-- JavaScript property assignment `out[k] = v`: overwrites in place when the
key exists, otherwise appends in insertion order. -/
def setParam (m : Params) (k : String) (v : ParamVal) : Params :=
  if m.any (fun p => p.1 == k) then
    m.map (fun p => if p.1 == k then (k, v) else p)
  else m.concat (k, v)

/-- Worker for `splitTokensPreservingQuotes` (screendeckSatellite.js, lines
32-60): a single pass over the characters carrying the accumulated token
`cur`, the `inQuotes` flag and the tokens emitted so far.  A backslash copies
the next character literally (or is dropped at end of input), a double quote
toggles quote mode without being emitted, an unquoted space flushes the
accumulated token (if non-empty), and the final token is flushed at end of
input. -/
def splitTokensAux : List Char → List Char → Bool → List (List Char) → List (List Char)
  | [], cur, _, toks => if cur.isEmpty then toks else toks.concat cur
  | c :: rest, cur, inQ, toks =>
    if c = '\\' then
      match rest with
      | [] => if cur.isEmpty then toks else toks.concat cur
      | c2 :: rest2 => splitTokensAux rest2 (cur.concat c2) inQ toks
    else if c = '"' then
      splitTokensAux rest cur (!inQ) toks
    else if c = ' ' then
      if inQ then splitTokensAux rest (cur.concat c) inQ toks
      else splitTokensAux rest [] inQ (if cur.isEmpty then toks else toks.concat cur)
    else splitTokensAux rest (cur.concat c) inQ toks

/-- `splitTokensPreservingQuotes(line)`: splits by spaces, keeping quoted
values together and supporting backslash escapes. -/
def splitTokensPreservingQuotes (line : String) : List String :=
  (splitTokensAux line.data [] false []).map (fun t => String.mk t)

/-- `String.prototype.indexOf` specialised to a single character: index of the
first occurrence, `none` for the JavaScript result `-1`. -/
def idxOfChar (c : Char) : List Char → Option Nat
  | [] => none
  | x :: rest => if x = c then some 0 else (idxOfChar c rest).map (fun i => i + 1)

/-- `parseParams(body)` (lines 62-77): a bare token becomes a `true` flag, a
`K=V` token splits at the first `=`. -/
def parseParams (body : String) : Params :=
  (splitTokensPreservingQuotes body).foldl
    (fun out t =>
      match idxOfChar '=' t.data with
      | none => setParam out t ParamVal.boolTrue
      | some eq =>
          setParam out (String.mk (t.data.take eq))
            (ParamVal.str (String.mk (t.data.drop (eq + 1)))))
    []

/-- Inside quote mode, characters other than `"` and `\` are accumulated
verbatim (spaces included), and the final token is flushed even though the
quote is never closed. -/
lemma splitTokensAux_plain (l : List Char) (cur : List Char) (toks : List (List Char))
    (h : ∀ c ∈ l, c ≠ '"' ∧ c ≠ '\\') (hne : cur ++ l ≠ []) :
    splitTokensAux l cur true toks = toks.concat (cur ++ l) := by
  induction l generalizing cur with
  | nil =>
    rcases cur with _ | ⟨c, cur⟩
    · simp at hne
    · simp [splitTokensAux]
  | cons c rest ih =>
    obtain ⟨hq, hb⟩ := h c (by simp)
    have hrest : ∀ c ∈ rest, c ≠ '"' ∧ c ≠ '\\' := fun c hc => h c (by simp [hc])
    have hacc : splitTokensAux (c :: rest) cur true toks
        = splitTokensAux rest (cur.concat c) true toks := by
      rw [splitTokensAux.eq_def]
      by_cases hsp : c = ' '
      · subst hsp; simp [if_neg hb, if_neg hq]
      · simp [if_neg hb, if_neg hq, if_neg hsp]
    rw [hacc, ih (cur.concat c) hrest (by simp)]
    simp

/-- JavaScript `Number.parseInt(s, 10)`: skip leading whitespace, optional
sign, then the longest run of decimal digits; `none` models `NaN`. -/
def leadingDigits : List Char → List Char
  | [] => []
  | c :: rest => if c.isDigit then c :: leadingDigits rest else []

def digitsToNat (l : List Char) : Nat :=
  l.foldl (fun a c => a * 10 + (c.toNat - '0'.toNat)) 0

def parseIntJS (s : String) : Option Int :=
  let l := s.data.dropWhile (fun c => c = ' ' || c = '\t' || c = '\n' || c = '\r')
  let signAndRest : Int × List Char :=
    match l with
    | '-' :: rest => (-1, rest)
    | '+' :: rest => (1, rest)
    | _ => (1, l)
  let ds := leadingDigits signAndRest.2
  if ds.isEmpty then none else some (signAndRest.1 * (digitsToNat ds : Int))

/-- `String(value)` applied to a parameter-map value (`undefined`, `true` or a
string), as the sole coercion `clampInt` call sites need. -/
def jsToString : Option ParamVal → String
  | none => "undefined"
  | some ParamVal.boolTrue => "true"
  | some (ParamVal.str v) => v

/-- `clampInt(value, min, max, fallback)` (screendeckSatellite.js lines
26-30); the caller performs the `String(value)` coercion. -/
def clampInt (value : String) (mn mx fallback : Int) : Int :=
  match parseIntJS value with
  | none => fallback
  | some n => max mn (min mx n)

/-- `safeString(v, '')` (lines 9-11): the value if it is a string, else the
empty-string fallback. -/
def safeString (v : Option ParamVal) : String :=
  match v with
  | some (ParamVal.str s) => s
  | _ => ""

/-- `safeString(v, null)` as used by `getStatus`. -/
def safeStringOrNull (v : Option ParamVal) : Option String :=
  match v with
  | some (ParamVal.str s) => some s
  | _ => none

/-- `String.prototype.toUpperCase` restricted to the ASCII range the protocol
verbs use. -/
def jsToUpper (s : String) : String := String.mk (s.data.map Char.toUpper)

/-- One configured device descriptor (the sanitized record built by
`reloadFromConfig`, lines 131-141). -/
structure Device where
  id : String
  columns : Int
  rows : Int
  bitmap : Int
  backgroundColor : String
  backgroundOpacity : Int
  alwaysOnTop : Bool
  movable : Bool
  disableButtonPresses : Bool
deriving DecidableEq, Repr

/-- A JavaScript value passed to `sendCommand` as a command argument. -/
inductive JSArg
  | b (v : Bool)
  | n (v : Int)
  | s (v : String)
deriving DecidableEq, Repr

/-- `sendCommand` argument rendering (lines 282-286): booleans as `1`/`0`,
numbers as decimal text, everything else double-quoted. -/
def encodeArg : String × JSArg → String
  | (k, JSArg.b v) => k ++ "=" ++ (if v then "1" else "0")
  | (k, JSArg.n v) => k ++ "=" ++ toString v
  | (k, JSArg.s v) => k ++ "=\"" ++ v ++ "\""

def encodeCommandLine (cmd : String) (args : List (String × JSArg)) : String :=
  String.intercalate " " (cmd :: args.map encodeArg)

/-- Externally observable side effects of the satellite bridge, recorded in
arrival order: socket writes, calls into the surface registry API, and IPC
messages to a device's presentation window. -/
inductive Effect
  | sockWrite (line : String)
  | surfaceClear (surfaceId : String)
  | surfaceDraw (surfaceId : String) (x y : Int)
      (text bitmap color : Option ParamVal)
  | surfaceKeyAct (surfaceId : String) (x y : Int) (press : Bool)
  | winSend (deviceId channel : String)
deriving DecidableEq, Repr

/-- The mutable fields of `ScreenDeckSatellite` (constructor, lines 80-92).
`hasSocket` abstracts `this.socket !== null`; `reconnectTimer` lists the
outstanding timer delays in milliseconds (the source stores at most one
timeout handle); `effects` is the appended-only observation trace. -/
structure SatState where
  connected : Bool
  connecting : Bool
  lastBegin : Option Params
  devices : List Device
  registeredDevices : List String
  pendingDevices : List String
  hasSocket : Bool
  reconnectTimer : List Int
  windows : List String
  buffer : String
  effects : List Effect
deriving DecidableEq, Repr

/-- `Set.prototype.add`: a no-op when the element is present. -/
def setAdd (l : List String) (x : String) : List String :=
  if x ∈ l then l else l.concat x

/-- `Set.prototype.delete`. -/
def setDelete (l : List String) (x : String) : List String :=
  l.filter (fun y => y ≠ x)

/-- JavaScript truthiness of a parameter-map value, for `!params.ERROR`. -/
def jsTruthy : Option ParamVal → Bool
  | none => false
  | some ParamVal.boolTrue => true
  | some (ParamVal.str v) => v ≠ ""

/-- `line.endsWith('\n')`. -/
def jsEndsWithNewline (l : String) : Bool := l.data.getLast? == some '\n'

/-- The text actually written for `line` (line 274). -/
def wireLine (l : String) : String := if jsEndsWithNewline l then l else l ++ "\n"

/-- `sendLine` (lines 271-278): silently drops the line unless a socket exists
and the connection is up. -/
def sendLine (s : SatState) (line : String) : SatState :=
  if !s.hasSocket || !s.connected then s
  else { s with effects := s.effects.concat (Effect.sockWrite (wireLine line)) }

/-- `sendCommand` (lines 280-288). -/
def sendCommand (s : SatState) (cmd : String) (args : List (String × JSArg)) : SatState :=
  sendLine s (encodeCommandLine cmd args)

/-- The argument object literal of the outgoing `ADD-DEVICE` command
(lines 295-307); `"W10="` is the base64 rendering of the constant
`JSON.stringify([])`. -/
def addDeviceArgs (dev : Device) : List (String × JSArg) :=
  [("DEVICEID", JSArg.s dev.id),
   ("PRODUCT_NAME", JSArg.s ("ScreenDeck " ++ dev.id)),
   ("KEYS_TOTAL", JSArg.n (dev.columns * dev.rows)),
   ("KEYS_PER_ROW", JSArg.n dev.columns),
   ("BITMAPS", JSArg.n dev.bitmap),
   ("COLORS", JSArg.b true),
   ("TEXT", JSArg.b true),
   ("TEXT_STYLE", JSArg.b false),
   ("VARIABLES", JSArg.s "W10="),
   ("BRIGHTNESS", JSArg.n 100),
   ("PINCODE_LOCK", JSArg.s "")]

/-- The exact line `addDeviceToCompanion` puts on the wire for `dev`. -/
def addDeviceLine (dev : Device) : String :=
  wireLine (encodeCommandLine "ADD-DEVICE" (addDeviceArgs dev))

/-- `addDeviceToCompanion` (lines 290-308): no-op when disconnected or when
the device is already pending or registered; otherwise marks it pending and
emits the `ADD-DEVICE` command. -/
def addDeviceToCompanion (s : SatState) (dev : Device) : SatState :=
  if !s.connected || !s.hasSocket then s
  else if dev.id ∈ s.registeredDevices || dev.id ∈ s.pendingDevices then s
  else
    sendCommand { s with pendingDevices := setAdd s.pendingDevices dev.id }
      "ADD-DEVICE" (addDeviceArgs dev)

/-- `scheduleReconnect` (lines 262-269): a singleton guard, then a device
check, then a 1000 ms timeout. -/
def scheduleReconnect (s : SatState) : SatState :=
  if !s.reconnectTimer.isEmpty then s
  else if s.devices.isEmpty then s
  else { s with reconnectTimer := s.reconnectTimer.concat 1000 }

/-- `disconnect` (lines 239-260): reset all connection state, cancel the
timer, destroy the socket. -/
def disconnectSat (s : SatState) : SatState :=
  { s with connected := false, connecting := false, lastBegin := none,
           registeredDevices := [], pendingDevices := [], buffer := "",
           reconnectTimer := [], hasSocket := false }

/-- The synchronous part of `connect` (lines 189-199): tear down, mark
connecting, clear handshake state, install a fresh socket. -/
def connectSat (s : SatState) : SatState :=
  { disconnectSat s with connecting := true, connected := false,
                         lastBegin := none, registeredDevices := [],
                         pendingDevices := [], hasSocket := true }

/-- `reconnect` (lines 176-187): with zero devices configured it fully
disconnects, otherwise it (re)connects. -/
def reconnectSat (s : SatState) : SatState :=
  if s.devices.isEmpty then disconnectSat s else connectSat s

/-- The shared body of the socket `error` and `close` handlers
(lines 213-229, textually identical in the source). -/
def socketDown (s : SatState) : SatState :=
  scheduleReconnect
    { s with connecting := false, connected := false, lastBegin := none,
             registeredDevices := [], pendingDevices := [] }

/-- The socket `connect` handler (lines 202-207). -/
def onSockConnect (s : SatState) : SatState :=
  { s with connecting := true, connected := true, buffer := "" }

/-- The reconnect timer firing (lines 265-268): clear the handle, reconnect. -/
def timerFire (s : SatState) : SatState :=
  match s.reconnectTimer with
  | [] => s
  | _ :: rest => reconnectSat { s with reconnectTimer := rest }

/-- `String.prototype.split('/')`: full split at every `/`, empty segments
preserved. -/
def splitOnSlash : List Char → List (List Char)
  | [] => [[]]
  | c :: rest =>
    if c = '/' then [] :: splitOnSlash rest
    else
      match splitOnSlash rest with
      | [] => [[c]]
      | t :: ts => (c :: t) :: ts

/-- `broadcastToDeviceWindow` (lines 371-379): an IPC send when (and only
when) a window for the device exists. -/
def broadcastToDeviceWindow (s : SatState) (deviceId channel : String) : SatState :=
  if deviceId ∈ s.windows then
    { s with effects := s.effects.concat (Effect.winSend deviceId channel) }
  else s

/-- The `KEY-STATE` key-address decoding (lines 437-447): `"row/col"` when the
parameter is a string containing `/` (split on `/`, limit 2, row and column
clamped into the grid), otherwise a flat index clamped into
`[0, columns*rows-1]` with `x = index mod columns`,
`y = floor(index / columns)`.  `Int.emod`/`Int.ediv` agree with the
JavaScript `%` and `Math.floor` division on the nonnegative dividends and
positive divisors produced here. -/
def decodeKeyXY (key : Option ParamVal) (columns rows : Int) : Int × Int :=
  match key with
  | some (ParamVal.str k) =>
    if k.data.contains '/' then
      let parts := (splitOnSlash k.data).map (fun t => String.mk t)
      let rowStr := parts.headD ""
      let colStr := (parts.drop 1).headD ""
      let y := clampInt rowStr 0 (rows - 1) 0
      let x := clampInt colStr 0 (columns - 1) 0
      (x, y)
    else
      let keyIndex := clampInt k 0 (columns * rows - 1) 0
      (Int.emod keyIndex columns, Int.ediv keyIndex columns)
  | other =>
      let keyIndex := clampInt (jsToString other) 0 (columns * rows - 1) 0
      (Int.emod keyIndex columns, Int.ediv keyIndex columns)

/-- The `BEGIN` branch of `handleLine` (lines 404-410): record the peer
announcement, leave the handshake wait, register every configured device. -/
def handleBegin (s : SatState) (params : Params) : SatState :=
  s.devices.foldl addDeviceToCompanion
    { s with lastBegin := some params, connecting := false }

/-- The success test of the `ADD-DEVICE` acknowledgment branch (line 414):
`params.OK === true || params.OK === '1'`. -/
def ackOk (params : Params) : Bool :=
  getParam params "OK" == some ParamVal.boolTrue
    || getParam params "OK" == some (ParamVal.str "1")

/-- The device id recovered by the acknowledgment branch (line 415), `none`
when the parameter is not a string (the `typeof ... === 'number'` arm is
unreachable because `parseParams` only produces strings and `true`). -/
def ackDeviceId (params : Params) : Option String :=
  match getParam params "DEVICEID" with
  | some (ParamVal.str v) => some v
  | _ => none

/-- The `ADD-DEVICE` acknowledgment branch (lines 412-421). -/
def handleAddDevice (s : SatState) (params : Params) : SatState :=
  match ackDeviceId params with
  | some deviceId =>
    if deviceId ≠ "" then
      let s := { s with pendingDevices := setDelete s.pendingDevices deviceId }
      if ackOk params && !jsTruthy (getParam params "ERROR") then
        { s with registeredDevices := setAdd s.registeredDevices deviceId }
      else s
    else s
  | none => s

/-- The `KEYS-CLEAR` branch (lines 423-429): it guards only on the id being a
non-empty string, then calls the surface registry and the device window. -/
def handleKeysClear (s : SatState) (params : Params) : SatState :=
  let deviceId := safeString (getParam params "DEVICEID")
  if deviceId = "" then s
  else
    broadcastToDeviceWindow
      { s with effects := s.effects.concat (Effect.surfaceClear deviceId) }
      deviceId "screendeck:clear"

/-- The `KEY-STATE` branch (lines 431-481).  The base64 decoding of the
`BITMAP`/`TEXT` payloads and the MIME sniffing (lines 449-476) happen after
the addressing and are not modelled; the draw effect carries the raw
parameter values instead. -/
def handleKeyState (s : SatState) (params : Params) : SatState :=
  let deviceId := safeString (getParam params "DEVICEID")
  if deviceId = "" then s
  else
    match s.devices.find? (fun d => d.id == deviceId) with
    | none => s
    | some dev =>
      let xy := decodeKeyXY (getParam params "KEY") dev.columns dev.rows
      let drawn := Effect.surfaceDraw deviceId xy.1 xy.2 (getParam params "TEXT")
        (getParam params "BITMAP") (getParam params "COLOR")
      broadcastToDeviceWindow { s with effects := s.effects.concat drawn }
        deviceId "screendeck:draw"

/-- `handleLine` (lines 392-482): split off the verb at the first space,
upper-case it, parse the body, dispatch.  Unknown verbs fall through. -/
def handleLine (s : SatState) (line : String) : SatState :=
  let cmdBody : String × String :=
    match idxOfChar ' ' line.data with
    | none => (line, "")
    | some i => (String.mk (line.data.take i), String.mk (line.data.drop (i + 1)))
  let cmd := jsToUpper cmdBody.1
  let body := cmdBody.2
  let params := parseParams body
  if cmd = "PING" then sendLine s ("PONG " ++ body)
  else if cmd = "PONG" then s
  else if cmd = "BEGIN" then handleBegin s params
  else if cmd = "ADD-DEVICE" then handleAddDevice s params
  else if cmd = "KEYS-CLEAR" then handleKeysClear s params
  else if cmd = "KEY-STATE" then handleKeyState s params
  else s

/-- `keyPress` (lines 310-322); the raw `x`/`y` reach `clampInt` after the
JavaScript `String(...)` coercion, so they are taken here as strings. -/
def keyPress (s : SatState) (deviceId x y : String) (pressed : Bool) : SatState :=
  match s.devices.find? (fun d => d.id == deviceId) with
  | none => s
  | some dev =>
    let xi := clampInt x 0 (dev.columns - 1) 0
    let yi := clampInt y 0 (dev.rows - 1) 0
    let keyIndex := yi * dev.columns + xi
    let s := sendCommand s "KEY-PRESS"
      [("DEVICEID", JSArg.s deviceId), ("KEY", JSArg.n keyIndex),
       ("PRESSED", JSArg.b pressed)]
    { s with effects := s.effects.concat (Effect.surfaceKeyAct deviceId xi yi pressed) }

/-- The record returned by `getStatus` (lines 110-119). -/
structure Status where
  connected : Bool
  connecting : Bool
  companionVersion : Option String
  companionApiVersion : Option String
  deviceCount : Nat
  registeredCount : Nat
deriving DecidableEq, Repr

def getStatus (s : SatState) : Status :=
  { connected := s.connected
    connecting := s.connecting
    companionVersion :=
      match s.lastBegin with
      | none => none
      | some p => safeStringOrNull (getParam p "CompanionVersion")
    companionApiVersion :=
      match s.lastBegin with
      | none => none
      | some p => safeStringOrNull (getParam p "ApiVersion")
    deviceCount := s.devices.length
    registeredCount := s.registeredDevices.length }

/-- The events that drive the bridge: the four socket callbacks installed by
`connect`, the reconnect timer, the public `reconnect`/`disconnect` calls,
a configuration change (`config.onDidChange` runs `reloadFromConfig` and then
`reconnect`; the per-field sanitisation of the incoming descriptors is
performed by the caller of the event here), and a UI key press. -/
inductive Event
  | sockConnect
  | sockError
  | sockClose
  | lineArrives (l : String)
  | timer
  | reconnectCall
  | disconnectCall
  | setDevices (ds : List Device)
  | uiKeyPress (deviceId x y : String) (pressed : Bool)

def stepEv (s : SatState) : Event → SatState
  | Event.sockConnect => onSockConnect s
  | Event.sockError => socketDown s
  | Event.sockClose => socketDown s
  | Event.lineArrives l => handleLine s l
  | Event.timer => timerFire s
  | Event.reconnectCall => reconnectSat s
  | Event.disconnectCall => disconnectSat s
  | Event.setDevices ds =>
      reconnectSat { s with devices := ds,
                            windows := s.windows.filter (fun id => ds.any (fun d => d.id == id)) }
  | Event.uiKeyPress d x y p => keyPress s d x y p

def runEvents (s : SatState) (evs : List Event) : SatState := evs.foldl stepEv s

/-- The state after the constructor (lines 80-92). -/
def emptyState : SatState :=
  { connected := false, connecting := false, lastBegin := none, devices := [],
    registeredDevices := [], pendingDevices := [], hasSocket := false,
    reconnectTimer := [], windows := [], buffer := "", effects := [] }

/-- `init` (lines 94-108): load the configured devices, then `reconnect()`. -/
def initState (devices : List Device) : SatState :=
  reconnectSat { emptyState with devices := devices }

/-! ### Helper lemmas -/

lemma addDeviceToCompanion_core (s : SatState) (d : Device) :
    (addDeviceToCompanion s d).connected = s.connected
    ∧ (addDeviceToCompanion s d).connecting = s.connecting
    ∧ (addDeviceToCompanion s d).hasSocket = s.hasSocket
    ∧ (addDeviceToCompanion s d).devices = s.devices
    ∧ (addDeviceToCompanion s d).registeredDevices = s.registeredDevices
    ∧ (addDeviceToCompanion s d).reconnectTimer = s.reconnectTimer
    ∧ (addDeviceToCompanion s d).windows = s.windows
    ∧ (addDeviceToCompanion s d).lastBegin = s.lastBegin := by
  unfold addDeviceToCompanion sendCommand sendLine
  repeat' split
  all_goals simp

lemma foldl_addDevice_frame {α : Type} (f : SatState → α)
    (hf : ∀ s d, f (addDeviceToCompanion s d) = f s) :
    ∀ (ds : List Device) (s : SatState), f (ds.foldl addDeviceToCompanion s) = f s := by
  intro ds
  induction ds with
  | nil => intro s; rfl
  | cons d rest ih => intro s; rw [List.foldl_cons, ih, hf]

lemma handleBegin_connecting (s : SatState) (p : Params) :
    (handleBegin s p).connecting = false := by
  unfold handleBegin
  rw [foldl_addDevice_frame (fun t => t.connecting) (fun s d => (addDeviceToCompanion_core s d).2.1)]

lemma handleBegin_connected (s : SatState) (p : Params) :
    (handleBegin s p).connected = s.connected := by
  unfold handleBegin
  rw [foldl_addDevice_frame (fun t => t.connected) (fun s d => (addDeviceToCompanion_core s d).1)]

/-- Dispatch of a peer-announcement line: the verb before the first space is
`BEGIN`, the rest of the line is the body. -/
lemma handleLine_begin (s : SatState) (rest : String) :
    handleLine s ("BEGIN " ++ rest) = handleBegin s (parseParams rest) := by
  obtain ⟨l⟩ := rest
  have hdata : ("BEGIN " ++ String.mk l).data = 'B' :: 'E' :: 'G' :: 'I' :: 'N' :: ' ' :: l := by
    rw [String.data_append]; rfl
  unfold handleLine
  rw [hdata]
  simp [idxOfChar, jsToUpper]

/-- A concrete configured device (columns 8, rows 4, the configuration
defaults). -/
def devA : Device :=
  ⟨"dev1", 8, 4, 72, "#000000", 60, false, false, false⟩

/-- A live session state: `devA` configured, socket up, no handshake yet. -/
def stateConn : SatState :=
  { emptyState with devices := [devA], connected := true, hasSocket := true }

/-! ### Claims -/

/-- C7: the body tokenizer yields `["A", "B=x y", "C"]` on `A B="x y" C` (and
the parsed parameter map is `{A: true, B: "x y", C: true}`); an input that
opens a quote and never closes it still flushes the final accumulated token;
a backslash-escaped `"` inside a quoted value contributes a literal `"`
without toggling quote mode (the space after it stays inside the token). -/
theorem claim_C7_tokenizer :
    splitTokensPreservingQuotes "A B=\"x y\" C" = ["A", "B=x y", "C"]
    ∧ parseParams "A B=\"x y\" C" =
        [("A", ParamVal.boolTrue), ("B", ParamVal.str "x y"), ("C", ParamVal.boolTrue)]
    ∧ (∀ v : String, v ≠ "" → (∀ c ∈ v.data, c ≠ '"' ∧ c ≠ '\\') →
        splitTokensPreservingQuotes ("A \"" ++ v) = ["A", v])
    ∧ splitTokensPreservingQuotes "B=\"x \\\" y\" C" = ["B=x \" y", "C"] := by
  refine ⟨by decide, by decide, ?_, by decide⟩
  intro v hv hchars
  obtain ⟨l⟩ := v
  have hdata : ("A \"" ++ String.mk l).data = 'A' :: ' ' :: '"' :: l := by
    rw [String.data_append]; rfl
  have hl : l ≠ [] := fun h => hv (by rw [h])
  unfold splitTokensPreservingQuotes
  rw [hdata]
  have hstep : splitTokensAux ('A' :: ' ' :: '"' :: l) [] false [] =
      splitTokensAux l [] true [['A']] := by
    rw [splitTokensAux.eq_def]; simp
    rw [splitTokensAux.eq_def]; simp
    rw [splitTokensAux.eq_def]; simp
  rw [hstep, splitTokensAux_plain l [] [['A']] hchars (by simpa using hl)]
  simp

theorem claim_C7_witness :
    splitTokensPreservingQuotes ("A \"" ++ "hello world") = ["A", "hello world"] :=
  claim_C7_tokenizer.2.2.1 "hello world" (by decide) (by decide)

/-- C1 (counterexample): from a state with an empty pending set and an empty
registered set, the acknowledgment `ADD-DEVICE DEVICEID="ghost" OK=1` — whose
device id is not pending, hence "not recognized" in the claim's sense — still
changes the registered set, adding `ghost`.  The claim's final conjunct (an
ack for a non-pending id changes neither set) is false. -/
theorem claim_C1_counterexample :
    stateConn.pendingDevices = [] ∧ stateConn.registeredDevices = []
    ∧ (handleLine stateConn "ADD-DEVICE DEVICEID=\"ghost\" OK=1").registeredDevices
        = ["ghost"] := by
  refine ⟨rfl, rfl, ?_⟩
  decide

/-- C1 (amended): an acknowledgment carrying a non-empty string device id
always removes that id from `pending`; when it carries success (`OK` flag or
`OK=1`) and no truthy `ERROR` value it adds the id to `registered` — whether
or not the id was pending; acknowledgments whose `DEVICEID` is missing, a
bare flag, or the empty string change nothing. -/
theorem claim_C1_amended (s : SatState) (params : Params) (id : String)
    (hid : ackDeviceId params = some id) (hne : id ≠ "") :
    (id ∉ (handleAddDevice s params).pendingDevices)
    ∧ (handleAddDevice s params).pendingDevices = setDelete s.pendingDevices id
    ∧ ((ackOk params && !jsTruthy (getParam params "ERROR")) = true →
        (handleAddDevice s params).registeredDevices = setAdd s.registeredDevices id)
    ∧ ((ackOk params && !jsTruthy (getParam params "ERROR")) = false →
        (handleAddDevice s params).registeredDevices = s.registeredDevices)
    ∧ (∀ (t : SatState) (params2 : Params), ackDeviceId params2 = none →
        handleAddDevice t params2 = t)
    ∧ (∀ (t : SatState) (params2 : Params), ackDeviceId params2 = some "" →
        handleAddDevice t params2 = t) := by
  refine ⟨?_, ?_, ?_, ?_, ?_, ?_⟩
  · unfold handleAddDevice
    rw [hid]
    simp only [if_pos hne]
    split <;> simp [setDelete]
  · unfold handleAddDevice
    rw [hid]
    simp only [if_pos hne]
    split <;> rfl
  · intro hok
    unfold handleAddDevice
    rw [hid]
    simp only [if_pos hne, hok]
    rfl
  · intro hok
    unfold handleAddDevice
    rw [hid]
    simp only [if_pos hne, hok]
    rfl
  · intro t params2 h2
    unfold handleAddDevice
    rw [h2]
  · intro t params2 h2
    unfold handleAddDevice
    rw [h2]
    simp

theorem claim_C1_amended_witness :
    ("dev1" ∉ (handleAddDevice stateConn (parseParams "DEVICEID=\"dev1\" OK=1")).pendingDevices)
    ∧ handleAddDevice stateConn (parseParams "PONGBODY") = stateConn := by
  have h := claim_C1_amended stateConn (parseParams "DEVICEID=\"dev1\" OK=1") "dev1"
    (by decide) (by decide)
  exact ⟨h.1, h.2.2.2.2.1 stateConn (parseParams "PONGBODY") (by decide)⟩

/-- C3 (counterexample): `ghost` is not a configured device of `stateConn`,
yet the `KEYS-CLEAR` directive naming it is not ignored: the surface registry
is still instructed to clear it.  The handler never resolves the id against
the configured device set (contrast the `KEY-STATE` branch, which does). -/
theorem claim_C3_counterexample :
    stateConn.devices.find? (fun d => d.id == "ghost") = none
    ∧ stateConn.effects = []
    ∧ (handleLine stateConn "KEYS-CLEAR DEVICEID=\"ghost\"").effects
        = [Effect.surfaceClear "ghost"] := by
  refine ⟨by decide, rfl, ?_⟩
  decide

/-- C3 (amended): the `KEYS-CLEAR` handler ignores the directive only when
its device id parameter is missing, not a string, or empty; for any non-empty
id — configured or not — it instructs the surface registry to clear that
surface and notifies the device's presentation window when one is open,
changing no other state. -/
theorem claim_C3_amended (s : SatState) (params : Params) (id : String)
    (hid : safeString (getParam params "DEVICEID") = id) (hne : id ≠ "") :
    (handleKeysClear s params).effects =
      (if id ∈ s.windows
       then (s.effects.concat (Effect.surfaceClear id)).concat
              (Effect.winSend id "screendeck:clear")
       else s.effects.concat (Effect.surfaceClear id))
    ∧ (handleKeysClear s params).pendingDevices = s.pendingDevices
    ∧ (handleKeysClear s params).registeredDevices = s.registeredDevices
    ∧ (handleKeysClear s params).devices = s.devices
    ∧ (handleKeysClear s params).connected = s.connected
    ∧ (∀ (t : SatState) (params2 : Params),
        safeString (getParam params2 "DEVICEID") = "" → handleKeysClear t params2 = t) := by
  have hmain : handleKeysClear s params =
      broadcastToDeviceWindow
        { s with effects := s.effects.concat (Effect.surfaceClear id) }
        id "screendeck:clear" := by
    unfold handleKeysClear
    rw [hid, if_neg hne]
  refine ⟨?_, ?_, ?_, ?_, ?_, ?_⟩
  · rw [hmain]; unfold broadcastToDeviceWindow; split <;> simp_all
  · rw [hmain]; unfold broadcastToDeviceWindow; split <;> rfl
  · rw [hmain]; unfold broadcastToDeviceWindow; split <;> rfl
  · rw [hmain]; unfold broadcastToDeviceWindow; split <;> rfl
  · rw [hmain]; unfold broadcastToDeviceWindow; split <;> rfl
  · intro t params2 h2
    unfold handleKeysClear
    rw [h2]
    simp

theorem claim_C3_amended_witness :
    (handleKeysClear stateConn (parseParams "DEVICEID=\"ghost\"")).effects
      = [Effect.surfaceClear "ghost"]
    ∧ handleKeysClear stateConn (parseParams "OK=1") = stateConn := by
  have h := claim_C3_amended stateConn (parseParams "DEVICEID=\"ghost\"") "ghost"
    (by decide) (by decide)
  refine ⟨?_, h.2.2.2.2.2 stateConn (parseParams "OK=1") (by decide)⟩
  rw [h.1]
  decide

/-- C9: while the socket is absent or the connected flag is down, `sendLine`
— and with it every `sendCommand` — is the identity: nothing is written,
no state changes, nothing is queued. -/
theorem claim_C9_disconnected_send (s : SatState) (line cmd : String)
    (args : List (String × JSArg))
    (h : s.hasSocket = false ∨ s.connected = false) :
    sendLine s line = s ∧ sendCommand s cmd args = s := by
  have hl : ∀ l, sendLine s l = s := by
    intro l
    unfold sendLine
    rcases h with h | h <;> simp [h]
  exact ⟨hl line, hl (encodeCommandLine cmd args)⟩

theorem claim_C9_witness :
    sendLine emptyState "PING x" = emptyState
    ∧ sendCommand emptyState "PONG" [] = emptyState :=
  claim_C9_disconnected_send emptyState "PING x" "PONG" [] (Or.inl rfl)

/-- C10: after socket-level connect success the bridge reports
`connected = true` and `connecting = true` simultaneously (both directly and
through `getStatus`); receiving any `BEGIN` line then drops `connecting` to
`false` while `connected` stays `true`. -/
theorem claim_C10_handshake_flags (s : SatState) (rest : String) :
    (onSockConnect s).connected = true
    ∧ (onSockConnect s).connecting = true
    ∧ (getStatus (onSockConnect s)).connected = true
    ∧ (getStatus (onSockConnect s)).connecting = true
    ∧ (handleLine (onSockConnect s) ("BEGIN " ++ rest)).connecting = false
    ∧ (handleLine (onSockConnect s) ("BEGIN " ++ rest)).connected = true := by
  refine ⟨rfl, rfl, rfl, rfl, ?_, ?_⟩
  · rw [handleLine_begin, handleBegin_connecting]
  · rw [handleLine_begin, handleBegin_connected]; rfl

lemma addDevice_fires (s : SatState) (dev : Device)
    (hc : s.connected = true) (hs : s.hasSocket = true)
    (hnp : dev.id ∉ s.pendingDevices) (hnr : dev.id ∉ s.registeredDevices) :
    addDeviceToCompanion s dev =
      { s with pendingDevices := s.pendingDevices.concat dev.id,
               effects := s.effects.concat (Effect.sockWrite (addDeviceLine dev)) } := by
  unfold addDeviceToCompanion sendCommand sendLine setAdd addDeviceLine
  simp [hc, hs, hnp, hnr]

lemma addDevice_noop (t : SatState) (dev : Device)
    (h : dev.id ∈ t.pendingDevices ∨ dev.id ∈ t.registeredDevices) :
    addDeviceToCompanion t dev = t := by
  unfold addDeviceToCompanion
  rcases h with h | h
  · split
    · rfl
    · rw [if_pos]
      simp [h]
  · split
    · rfl
    · rw [if_pos]
      simp [h]

/-- C6: calling the registration attempt twice for the same device before any
acknowledgment emits exactly one outgoing `ADD-DEVICE` line and leaves exactly
one `pending` entry for the id; re-issuing a registration for a device that is
already pending or registered sends nothing and changes no state. -/
theorem claim_C6_idempotent_registration (s : SatState) (dev : Device)
    (hc : s.connected = true) (hs : s.hasSocket = true)
    (hnp : dev.id ∉ s.pendingDevices) (hnr : dev.id ∉ s.registeredDevices) :
    addDeviceToCompanion (addDeviceToCompanion s dev) dev = addDeviceToCompanion s dev
    ∧ (addDeviceToCompanion (addDeviceToCompanion s dev) dev).effects
        = s.effects.concat (Effect.sockWrite (addDeviceLine dev))
    ∧ (addDeviceToCompanion (addDeviceToCompanion s dev) dev).pendingDevices.count dev.id
        = 1
    ∧ (∀ t : SatState, dev.id ∈ t.pendingDevices ∨ dev.id ∈ t.registeredDevices →
        addDeviceToCompanion t dev = t) := by
  have hfire := addDevice_fires s dev hc hs hnp hnr
  have hsecond : addDeviceToCompanion (addDeviceToCompanion s dev) dev
      = addDeviceToCompanion s dev := by
    apply addDevice_noop
    left
    rw [hfire]
    simp
  refine ⟨hsecond, ?_, ?_, fun t h => addDevice_noop t dev h⟩
  · rw [hsecond, hfire]
  · rw [hsecond, hfire]
    have : List.count dev.id s.pendingDevices = 0 := List.count_eq_zero.mpr hnp
    simp [List.count_concat, this]

theorem claim_C6_witness :
    addDeviceToCompanion (addDeviceToCompanion stateConn devA) devA
      = addDeviceToCompanion stateConn devA
    ∧ (addDeviceToCompanion (addDeviceToCompanion stateConn devA) devA).pendingDevices.count
        devA.id = 1
    ∧ addDeviceToCompanion (handleLine stateConn ("BEGIN " ++ "")) devA
        = handleLine stateConn ("BEGIN " ++ "") := by
  have h := claim_C6_idempotent_registration stateConn devA rfl rfl
    (by decide) (by decide)
  refine ⟨h.1, h.2.2.1, h.2.2.2 _ ?_⟩
  left
  decide

lemma sendLine_timer (s : SatState) (l : String) :
    (sendLine s l).reconnectTimer = s.reconnectTimer := by
  unfold sendLine; split <;> rfl

lemma handleAddDevice_timer (s : SatState) (p : Params) :
    (handleAddDevice s p).reconnectTimer = s.reconnectTimer := by
  unfold handleAddDevice
  dsimp only
  repeat' split
  all_goals rfl

lemma handleKeysClear_timer (s : SatState) (p : Params) :
    (handleKeysClear s p).reconnectTimer = s.reconnectTimer := by
  unfold handleKeysClear broadcastToDeviceWindow
  dsimp only
  repeat' split
  all_goals rfl

lemma handleKeyState_timer (s : SatState) (p : Params) :
    (handleKeyState s p).reconnectTimer = s.reconnectTimer := by
  unfold handleKeyState broadcastToDeviceWindow
  dsimp only
  repeat' split
  all_goals rfl

lemma handleBegin_timer (s : SatState) (p : Params) :
    (handleBegin s p).reconnectTimer = s.reconnectTimer := by
  unfold handleBegin
  rw [foldl_addDevice_frame (fun t => t.reconnectTimer)
    (fun s d => (addDeviceToCompanion_core s d).2.2.2.2.2.1)]

lemma handleLine_timer (s : SatState) (l : String) :
    (handleLine s l).reconnectTimer = s.reconnectTimer := by
  unfold handleLine
  dsimp only
  repeat' split
  all_goals
    simp [sendLine_timer, handleBegin_timer, handleAddDevice_timer,
      handleKeysClear_timer, handleKeyState_timer]

lemma keyPress_timer (s : SatState) (d x y : String) (p : Bool) :
    (keyPress s d x y p).reconnectTimer = s.reconnectTimer := by
  unfold keyPress sendCommand sendLine
  dsimp only
  repeat' split
  all_goals rfl

lemma reconnectSat_timer (s : SatState) : (reconnectSat s).reconnectTimer = [] := by
  unfold reconnectSat disconnectSat connectSat
  split <;> rfl

lemma scheduleReconnect_timer_le (s : SatState) (h : s.reconnectTimer.length ≤ 1) :
    (scheduleReconnect s).reconnectTimer.length ≤ 1 := by
  unfold scheduleReconnect
  split
  · exact h
  · split
    · exact h
    · rename_i h1 _
      have he : s.reconnectTimer = [] := by simpa [List.isEmpty_iff] using h1
      simp [he]

lemma stepEv_timer_le (s : SatState) (e : Event) (h : s.reconnectTimer.length ≤ 1) :
    (stepEv s e).reconnectTimer.length ≤ 1 := by
  cases e with
  | sockConnect => exact h
  | sockError => exact scheduleReconnect_timer_le _ h
  | sockClose => exact scheduleReconnect_timer_le _ h
  | lineArrives l => rw [stepEv, handleLine_timer]; exact h
  | timer =>
      rw [stepEv]
      unfold timerFire
      split
      · exact h
      · rw [reconnectSat_timer]; simp
  | reconnectCall => rw [stepEv, reconnectSat_timer]; simp
  | disconnectCall => rw [stepEv]; simp [disconnectSat]
  | setDevices ds => rw [stepEv, reconnectSat_timer]; simp
  | uiKeyPress d x y p => rw [stepEv, keyPress_timer]; exact h

lemma scheduleReconnect_idem (t : SatState) :
    scheduleReconnect (scheduleReconnect t) = scheduleReconnect t := by
  by_cases h1 : t.reconnectTimer = []
  · by_cases h2 : t.devices = []
    · simp [scheduleReconnect, h1, h2]
    · simp [scheduleReconnect, h1, h2]
  · simp [scheduleReconnect, List.isEmpty_iff, h1]

lemma scheduleReconnect_fields (t : SatState) :
    (scheduleReconnect t).connected = t.connected
    ∧ (scheduleReconnect t).connecting = t.connecting
    ∧ (scheduleReconnect t).lastBegin = t.lastBegin
    ∧ (scheduleReconnect t).registeredDevices = t.registeredDevices
    ∧ (scheduleReconnect t).pendingDevices = t.pendingDevices
    ∧ (scheduleReconnect t).devices = t.devices
    ∧ (scheduleReconnect t).hasSocket = t.hasSocket
    ∧ (scheduleReconnect t).windows = t.windows
    ∧ (scheduleReconnect t).buffer = t.buffer
    ∧ (scheduleReconnect t).effects = t.effects := by
  unfold scheduleReconnect
  repeat' split
  all_goals simp

lemma clearFields_of_cleared (t : SatState) (h1 : t.connecting = false)
    (h2 : t.connected = false) (h3 : t.lastBegin = none)
    (h4 : t.registeredDevices = []) (h5 : t.pendingDevices = []) :
    ({ t with connecting := false, connected := false, lastBegin := none,
              registeredDevices := [], pendingDevices := [] } : SatState) = t := by
  cases t
  simp_all

lemma socketDown_idem (s : SatState) : socketDown (socketDown s) = socketDown s := by
  unfold socketDown
  rw [clearFields_of_cleared]
  · exact scheduleReconnect_idem _
  · exact (scheduleReconnect_fields _).2.1
  · exact (scheduleReconnect_fields _).1
  · exact (scheduleReconnect_fields _).2.2.1
  · exact (scheduleReconnect_fields _).2.2.2.1
  · exact (scheduleReconnect_fields _).2.2.2.2.1

lemma runEvents_timer_le (evs : List Event) (s : SatState)
    (h : s.reconnectTimer.length ≤ 1) :
    (runEvents s evs).reconnectTimer.length ≤ 1 := by
  induction evs generalizing s with
  | nil => exact h
  | cons e rest ih => exact ih _ (stepEv_timer_le s e h)

/-- C5: in every state reachable from initialisation at most one reconnect
timer is outstanding; the socket-down handler (shared by the `error` and
`close` callbacks) is idempotent, so a second error before the timer fires
schedules nothing further; the delay of a newly scheduled timer is the fixed
1000 ms; and `scheduleReconnect` is a no-op both while a timer is pending and
while zero devices are configured. -/
theorem claim_C5_reconnect_singleton (ds : List Device) (evs : List Event) :
    (runEvents (initState ds) evs).reconnectTimer.length ≤ 1
    ∧ (∀ s : SatState, socketDown (socketDown s) = socketDown s)
    ∧ (∀ s : SatState, s.reconnectTimer = [] → s.devices ≠ [] →
        (socketDown s).reconnectTimer = [1000])
    ∧ (∀ s : SatState, s.reconnectTimer ≠ [] → scheduleReconnect s = s)
    ∧ (∀ s : SatState, s.devices = [] → scheduleReconnect s = s) := by
  refine ⟨?_, ?_, ?_, ?_, ?_⟩
  · apply runEvents_timer_le
    rw [initState, reconnectSat_timer]
    simp
  · exact socketDown_idem
  · intro s h1 h2
    simp [socketDown, scheduleReconnect, h1, h2, List.isEmpty_iff]
  · intro s h1
    simp [scheduleReconnect, List.isEmpty_iff, h1]
  · intro s h1
    simp [scheduleReconnect, List.isEmpty_iff, h1]

theorem claim_C5_witness :
    (runEvents (initState [devA]) [Event.sockError, Event.sockError]).reconnectTimer.length ≤ 1
    ∧ socketDown (socketDown stateConn) = socketDown stateConn
    ∧ (socketDown stateConn).reconnectTimer = [1000]
    ∧ scheduleReconnect (socketDown stateConn) = socketDown stateConn
    ∧ scheduleReconnect emptyState = emptyState := by
  have h := claim_C5_reconnect_singleton [devA] [Event.sockError, Event.sockError]
  exact ⟨h.1, h.2.1 stateConn, h.2.2.1 stateConn rfl (by decide),
    h.2.2.2.1 (socketDown stateConn) (by decide), h.2.2.2.2 emptyState rfl⟩

lemma addDevice_pending_mono (s : SatState) (dev : Device) (x : String)
    (h : x ∈ s.pendingDevices) : x ∈ (addDeviceToCompanion s dev).pendingDevices := by
  unfold addDeviceToCompanion sendCommand sendLine setAdd
  repeat' split
  all_goals simp_all

lemma addDevice_effects_mono (s : SatState) (dev : Device) (e : Effect)
    (h : e ∈ s.effects) : e ∈ (addDeviceToCompanion s dev).effects := by
  unfold addDeviceToCompanion sendCommand sendLine setAdd
  repeat' split
  all_goals simp_all

lemma foldl_addDevice_pending_mono (ds : List Device) (s : SatState) (x : String)
    (h : x ∈ s.pendingDevices) :
    x ∈ (ds.foldl addDeviceToCompanion s).pendingDevices := by
  induction ds generalizing s with
  | nil => exact h
  | cons d rest ih => exact ih _ (addDevice_pending_mono s d x h)

lemma foldl_addDevice_effects_mono (ds : List Device) (s : SatState) (e : Effect)
    (h : e ∈ s.effects) :
    e ∈ (ds.foldl addDeviceToCompanion s).effects := by
  induction ds generalizing s with
  | nil => exact h
  | cons d rest ih => exact ih _ (addDevice_effects_mono s d e h)

/-- Folding the registration attempt over a duplicate-free device list from a
state with an empty registered set marks every device pending and emits its
`ADD-DEVICE` line. -/
lemma foldl_addDevice_registers (ds : List Device) (s : SatState)
    (hc : s.connected = true) (hs : s.hasSocket = true)
    (hr : s.registeredDevices = [])
    (hnd : (ds.map Device.id).Nodup)
    (hp : ∀ d ∈ ds, d.id ∉ s.pendingDevices) :
    ∀ dev ∈ ds, dev.id ∈ (ds.foldl addDeviceToCompanion s).pendingDevices
      ∧ Effect.sockWrite (addDeviceLine dev) ∈ (ds.foldl addDeviceToCompanion s).effects := by
  induction ds generalizing s with
  | nil => intro dev h; cases h
  | cons d rest ih =>
    have hd_np : d.id ∉ s.pendingDevices := hp d (by simp)
    have hd_nr : d.id ∉ s.registeredDevices := by rw [hr]; simp
    have hfire := addDevice_fires s d hc hs hd_np hd_nr
    have hcore := addDeviceToCompanion_core s d
    intro dev hdev
    rw [List.foldl_cons]
    rcases List.mem_cons.mp hdev with rfl | hdev2
    · constructor
      · apply foldl_addDevice_pending_mono
        rw [hfire]; simp
      · apply foldl_addDevice_effects_mono
        rw [hfire]; simp
    · have hnodup : (∀ x ∈ rest, ¬x.id = d.id) ∧ (List.map Device.id rest).Nodup := by
        simpa using hnd
      have hc1 : (addDeviceToCompanion s d).connected = true := by rw [hcore.1, hc]
      have hs1 : (addDeviceToCompanion s d).hasSocket = true := by rw [hcore.2.2.1, hs]
      have hr1 : (addDeviceToCompanion s d).registeredDevices = [] := by
        rw [hcore.2.2.2.2.1, hr]
      have hp1 : ∀ d2 ∈ rest, d2.id ∉ (addDeviceToCompanion s d).pendingDevices := by
        intro d2 hd2
        rw [hfire]
        simp only [List.concat_eq_append, List.mem_append, List.mem_singleton]
        rintro (hmem | heq)
        · exact hp d2 (by simp [hd2]) hmem
        · exact absurd heq (hnodup.1 d2 hd2)
      exact ih (addDeviceToCompanion s d) hc1 hs1 hr1 hnodup.2 hp1 dev hdev2

lemma socketDown_clears (s : SatState) :
    (socketDown s).pendingDevices = [] ∧ (socketDown s).registeredDevices = []
    ∧ (socketDown s).lastBegin = none ∧ (socketDown s).devices = s.devices
    ∧ (socketDown s).windows = s.windows ∧ (socketDown s).effects = s.effects := by
  refine ⟨?_, ?_, ?_, ?_, ?_, ?_⟩
  · exact (scheduleReconnect_fields _).2.2.2.2.1
  · exact (scheduleReconnect_fields _).2.2.2.1
  · exact (scheduleReconnect_fields _).2.2.1
  · exact (scheduleReconnect_fields _).2.2.2.2.2.1
  · exact (scheduleReconnect_fields _).2.2.2.2.2.2.2.1
  · exact (scheduleReconnect_fields _).2.2.2.2.2.2.2.2.2

/-- After a socket-down event with devices still configured, the pending
reconnect timer fires into a fresh connecting state carrying the same devices,
windows and effect trace. -/
lemma timerFire_socketDown (s : SatState) (hdev : s.devices ≠ []) :
    timerFire (socketDown s) =
      { connected := false, connecting := true, lastBegin := none,
        devices := s.devices, registeredDevices := [], pendingDevices := [],
        hasSocket := true, reconnectTimer := [], windows := s.windows,
        buffer := "", effects := s.effects } := by
  have htimer : (socketDown s).reconnectTimer ≠ [] := by
    unfold socketDown scheduleReconnect
    by_cases h1 : s.reconnectTimer = []
    · simp [h1, hdev]
    · simp [List.isEmpty_iff, h1]
  rcases h : (socketDown s).reconnectTimer with _ | ⟨t, ts⟩
  · exact absurd h htimer
  · unfold timerFire
    rw [h]
    dsimp only
    unfold reconnectSat
    rw [if_neg]
    · unfold connectSat disconnectSat
      simp [(socketDown_clears s).2.2.2.1, (socketDown_clears s).2.2.2.2.1,
        (socketDown_clears s).2.2.2.2.2]
    · simp [List.isEmpty_iff, (socketDown_clears s).2.2.2.1, hdev]

/-- C4: a socket `close` (or `error`) event — both callbacks share the
`socketDown` body — empties the pending and registered sets and clears the
stored peer announcement; after the scheduled reconnect fires and the new
socket connects, a received `BEGIN` line re-issues a registration attempt for
every configured device: each is back in `pending` and an `ADD-DEVICE` line
for it is on the wire. -/
theorem claim_C4_disconnect_resets (s : SatState) (rest : String)
    (hreg : s.registeredDevices ≠ []) (hdev : s.devices ≠ [])
    (hnd : (s.devices.map Device.id).Nodup) :
    (socketDown s).pendingDevices = []
    ∧ (socketDown s).registeredDevices = []
    ∧ (socketDown s).lastBegin = none
    ∧ (∀ dev ∈ s.devices,
        dev.id ∈ (handleLine (onSockConnect (timerFire (socketDown s)))
            ("BEGIN " ++ rest)).pendingDevices
        ∧ Effect.sockWrite (addDeviceLine dev)
            ∈ (handleLine (onSockConnect (timerFire (socketDown s)))
                ("BEGIN " ++ rest)).effects) := by
  refine ⟨(socketDown_clears s).1, (socketDown_clears s).2.1,
    (socketDown_clears s).2.2.1, ?_⟩
  intro dev hdev2
  rw [handleLine_begin, timerFire_socketDown s hdev]
  unfold handleBegin onSockConnect
  dsimp only
  exact foldl_addDevice_registers s.devices _ rfl rfl rfl hnd
    (by intro d hd; simp) dev hdev2

/-- A session state in which `dev1` has completed registration. -/
def stateReg : SatState := { stateConn with registeredDevices := ["dev1"] }

theorem claim_C4_witness :
    (socketDown stateReg).registeredDevices = []
    ∧ (socketDown stateReg).pendingDevices = []
    ∧ "dev1" ∈ (handleLine (onSockConnect (timerFire (socketDown stateReg)))
        ("BEGIN " ++ "ApiVersion=\"1.5.1\"")).pendingDevices := by
  have h := claim_C4_disconnect_resets stateReg "ApiVersion=\"1.5.1\""
    (by decide) (by decide) (by decide)
  exact ⟨h.2.1, h.1, (h.2.2.2 devA (by decide)).1⟩

lemma clampInt_bounds (v : String) (mn mx fb : Int) (hmn : mn ≤ fb) (hmx : fb ≤ mx) :
    mn ≤ clampInt v mn mx fb ∧ clampInt v mn mx fb ≤ mx := by
  unfold clampInt
  cases parseIntJS v with
  | none => exact ⟨hmn, hmx⟩
  | some n =>
    exact ⟨le_max_left _ _, max_le (hmn.trans hmx) (min_le_left _ _)⟩

lemma emod_ediv_bounds (keyIndex columns rows : Int) (hc : 1 ≤ columns)
    (hr : 1 ≤ rows) (h0 : 0 ≤ keyIndex) (h1 : keyIndex ≤ columns * rows - 1) :
    0 ≤ Int.emod keyIndex columns ∧ Int.emod keyIndex columns < columns
    ∧ 0 ≤ Int.ediv keyIndex columns ∧ Int.ediv keyIndex columns < rows := by
  refine ⟨Int.emod_nonneg _ (by omega), Int.emod_lt_of_pos _ (by omega),
    Int.ediv_nonneg h0 (by omega), ?_⟩
  have hlt : keyIndex < rows * columns := by nlinarith
  exact Int.ediv_lt_of_lt_mul (by omega) hlt

lemma flat_decode_bounds (v : String) (columns rows : Int) (hc : 1 ≤ columns)
    (hr : 1 ≤ rows) :
    0 ≤ Int.emod (clampInt v 0 (columns * rows - 1) 0) columns
    ∧ Int.emod (clampInt v 0 (columns * rows - 1) 0) columns < columns
    ∧ 0 ≤ Int.ediv (clampInt v 0 (columns * rows - 1) 0) columns
    ∧ Int.ediv (clampInt v 0 (columns * rows - 1) 0) columns < rows := by
  have hcr : (1 : Int) ≤ columns * rows := by nlinarith
  have hb := clampInt_bounds v 0 (columns * rows - 1) 0 le_rfl (by omega)
  exact emod_ediv_bounds _ columns rows hc hr hb.1 hb.2

/-- C8: for an 8-column device, the flat `KEY-STATE` index `19` decodes to
`(x=3, y=2)` and the string form `"2/3"` (row 2, column 3) also decodes to
`(x=3, y=2)`; out-of-range inputs in either form (`999`, `99/99`, `-5`) clamp
into the grid; and for every key parameter and every grid with at least one
column and one row the decoded coordinates satisfy `0 ≤ x < columns` and
`0 ≤ y < rows`. -/
theorem claim_C8_key_addressing :
    decodeKeyXY (some (ParamVal.str "19")) 8 4 = (3, 2)
    ∧ decodeKeyXY (some (ParamVal.str "2/3")) 8 4 = (3, 2)
    ∧ decodeKeyXY (some (ParamVal.str "999")) 8 4 = (7, 3)
    ∧ decodeKeyXY (some (ParamVal.str "99/99")) 8 4 = (7, 3)
    ∧ decodeKeyXY (some (ParamVal.str "-5")) 8 4 = (0, 0)
    ∧ (∀ (key : Option ParamVal) (columns rows : Int), 1 ≤ columns → 1 ≤ rows →
        0 ≤ (decodeKeyXY key columns rows).1
        ∧ (decodeKeyXY key columns rows).1 < columns
        ∧ 0 ≤ (decodeKeyXY key columns rows).2
        ∧ (decodeKeyXY key columns rows).2 < rows) := by
  refine ⟨by decide, by decide, by decide, by decide, by decide, ?_⟩
  intro key columns rows hc hr
  rcases key with _ | pv
  · unfold decodeKeyXY
    dsimp only
    exact flat_decode_bounds _ columns rows hc hr
  · rcases pv with _ | k
    · unfold decodeKeyXY
      dsimp only
      exact flat_decode_bounds _ columns rows hc hr
    · unfold decodeKeyXY
      dsimp only
      split
      · have hy := clampInt_bounds (((splitOnSlash k.data).map (fun t => String.mk t)).headD "")
          0 (rows - 1) 0 le_rfl (by omega)
        have hx := clampInt_bounds ((((splitOnSlash k.data).map (fun t => String.mk t)).drop 1).headD "")
          0 (columns - 1) 0 le_rfl (by omega)
        exact ⟨hx.1, by omega, hy.1, by omega⟩
      · exact flat_decode_bounds _ columns rows hc hr

theorem claim_C8_witness :
    0 ≤ (decodeKeyXY (some ParamVal.boolTrue) 8 4).1
    ∧ (decodeKeyXY (some ParamVal.boolTrue) 8 4).1 < 8
    ∧ 0 ≤ (decodeKeyXY (some ParamVal.boolTrue) 8 4).2
    ∧ (decodeKeyXY (some ParamVal.boolTrue) 8 4).2 < 4 :=
  claim_C8_key_addressing.2.2.2.2.2 (some ParamVal.boolTrue) 8 4
    (by decide) (by decide)

namespace ApiServer

/-!
The surfaces section of `api.js`: the in-memory surface registry and the
`surface_draw` socket handler.
-/

/-- A JavaScript object property slot: absent (`none`), present holding
`undefined` (`some none`), or present holding a string (`some (some v)`).
Object spread copies *present* properties, `undefined`-valued ones included,
which is why the two layers must be distinguished. -/
abbrev PropSlot := Option (Option String)

/-- The value observed when reading the property (`undefined` for both an
absent slot and a present-but-undefined one). -/
def readProp (p : PropSlot) : Option String := p.join

/-- One cached key-visual-state object: the four fields `surface_draw`
manages (api.js lines 915-920). -/
structure KeyStateObj where
  text : PropSlot
  bgColor : PropSlot
  color : PropSlot
  imageBase64 : PropSlot
deriving DecidableEq, Repr

/-- `{}` — the empty object (`surface.keys[key] || {}`). -/
def emptyKeyState : KeyStateObj := ⟨none, none, none, none⟩

/-- Property-wise object spread `{...prev, ...next}`: a property present on
`next` — even one whose value is `undefined` — overwrites the one on
`prev`. -/
def spreadProp (prev next : PropSlot) : PropSlot :=
  match next with
  | some v => some v
  | none => prev

def spreadMerge (prev next : KeyStateObj) : KeyStateObj :=
  ⟨spreadProp prev.text next.text, spreadProp prev.bgColor next.bgColor,
   spreadProp prev.color next.color, spreadProp prev.imageBase64 next.imageBase64⟩

/-- JavaScript whitespace for `String.prototype.trim` (ASCII portion). -/
def isJsWs (c : Char) : Bool :=
  c = ' ' || c = '\t' || c = '\n' || c = '\r' || c = '\x0b' || c = '\x0c'

def jsTrim (s : String) : String :=
  String.mk (((s.data.dropWhile isJsWs).reverse.dropWhile isJsWs).reverse)

/-- The character class of the surface-id rule `[a-zA-Z0-9_-]`. -/
def isIdChar (c : Char) : Bool := c.isAlphanum || c = '_' || c = '-'

/-- `sanitizeSurfaceId` (api.js lines 513-520): non-strings and strings not
matching `^[a-zA-Z0-9_-]{1,64}$` after trimming are rejected. -/
def sanitizeSurfaceId (v : Option String) : Option String :=
  match v with
  | none => none
  | some s =>
    let t := jsTrim s
    if t = "" then none
    else if 1 ≤ t.length && t.length ≤ 64 && t.data.all isIdChar then some t
    else none

/-- `clampInt` as the `surface_draw` handler actually calls it: `api.js`
declares `clampInt` twice (a 3-argument version in the surfaces section, a
4-argument version in the settings section); JavaScript function-declaration
hoisting makes the later 4-argument definition the one every call in the
module uses, so a 3-argument call site receives `fallback = undefined`
(modelled by `none`) when parsing fails. -/
def clampIntApi (value : String) (mn mx : Int) (fallback : Option Int) : Option Int :=
  match parseIntJS value with
  | none => fallback
  | some n => some (if n < mn then mn else if n > mx then mx else n)

/-- `${v}` for the clamped coordinate: `undefined` renders as the text
`undefined` inside the template literal that builds the key. -/
def jsNumOptToString (v : Option Int) : String :=
  match v with
  | none => "undefined"
  | some n => toString n

/-- One registry entry (built by `surface_register`, api.js lines 885-895). -/
structure Surface where
  surfaceId : String
  name : String
  product : Option String
  host : Option String
  columns : Int
  rows : Int
  connectedAt : Int
  lastSeen : Int
  keys : List (String × KeyStateObj)
deriving DecidableEq, Repr

def getKey (m : List (String × KeyStateObj)) (k : String) : Option KeyStateObj :=
  (m.find? (fun p => p.1 == k)).map (fun p => p.2)

def setKey (m : List (String × KeyStateObj)) (k : String) (v : KeyStateObj) :
    List (String × KeyStateObj) :=
  if m.any (fun p => p.1 == k) then
    m.map (fun p => if p.1 == k then (k, v) else p)
  else m.concat (k, v)

abbrev SurfacesMap := List (String × Surface)

def getSurface (m : SurfacesMap) (k : String) : Option Surface :=
  (m.find? (fun p => p.1 == k)).map (fun p => p.2)

def setSurface (m : SurfacesMap) (k : String) (v : Surface) : SurfacesMap :=
  if m.any (fun p => p.1 == k) then
    m.map (fun p => if p.1 == k then (k, v) else p)
  else m.concat (k, v)

/-- The payload fields the `surface_draw` handler inspects; an `Option`
field is `some v` exactly when the payload carries a string there, and
`x`/`y` are taken after the `String(...)` coercion `clampInt` applies. -/
structure DrawPayload where
  surfaceId : Option String
  x : String
  y : String
  text : Option String
  bgColor : Option String
  color : Option String
  imageBase64 : Option String
deriving DecidableEq, Repr

/-- The `surface_draw` socket handler (api.js lines 904-930): resolve the
surface (payload id first, then the socket's registered id `fallbackId`),
clamp the coordinates, build `nextState` — whose four properties are always
present, holding `undefined` for a field absent from the payload — spread it
over the cached state, and stamp `lastSeen = now`.  The `io.sockets.emit`
broadcast of the delta is not modelled. -/
def surfaceDraw (surfaces : SurfacesMap) (fallbackId : Option String)
    (payload : DrawPayload) (now : Int) : SurfacesMap :=
  let sid :=
    match sanitizeSurfaceId payload.surfaceId with
    | some i => some i
    | none => fallbackId
  match sid with
  | none => surfaces
  | some surfaceId =>
    match getSurface surfaces surfaceId with
    | none => surfaces
    | some surface =>
      let x := clampIntApi payload.x 0 (surface.columns - 1) none
      let y := clampIntApi payload.y 0 (surface.rows - 1) none
      let key := jsNumOptToString x ++ "," ++ jsNumOptToString y
      let nextState : KeyStateObj :=
        ⟨some payload.text, some payload.bgColor, some payload.color,
         some payload.imageBase64⟩
      let prev := (getKey surface.keys key).getD emptyKeyState
      let surface2 :=
        { surface with keys := setKey surface.keys key (spreadMerge prev nextState),
                       lastSeen := now }
      setSurface surfaces surfaceId surface2

/-- A registered surface whose key `(0,0)` has cached `text = "A"`. -/
def c2Surface : Surface :=
  { surfaceId := "dev-1", name := "dev-1", product := none, host := none,
    columns := 8, rows := 4, connectedAt := 0, lastSeen := 0,
    keys := [("0,0", ⟨some (some "A"), none, none, none⟩)] }

/-- A draw for key `(0,0)` carrying only `color`, no `text`. -/
def c2Payload : DrawPayload :=
  { surfaceId := some "dev-1", x := "0", y := "0", text := none,
    bgColor := none, color := some "red", imageBase64 := none }

/-- C2: the cached state before the draw reads `text = "A"`; applying a draw
event that carries `color` but no `text` to the same key leaves a cached
state whose `text` reads `undefined` — the previous value is *not* retained,
because `nextState` always carries all four properties (the absent ones with
value `undefined`) and the object spread overwrites with them.  The spread of
the previous cached state is dead code under this construction, so the
claimed merge is the evident intent and the overwrite a slip. -/
theorem claim_C2_draw_overwrites_absent_fields :
    readProp ((getKey c2Surface.keys "0,0").getD emptyKeyState).text = some "A"
    ∧ ((getSurface (surfaceDraw [("dev-1", c2Surface)] none c2Payload 5) "dev-1").map
        (fun surf => readProp ((getKey surf.keys "0,0").getD emptyKeyState).text))
      = some none
    ∧ ((getSurface (surfaceDraw [("dev-1", c2Surface)] none c2Payload 5) "dev-1").map
        (fun surf => readProp ((getKey surf.keys "0,0").getD emptyKeyState).color))
      = some (some "red")
    ∧ ((getSurface (surfaceDraw [("dev-1", c2Surface)] none c2Payload 5) "dev-1").map
        (fun surf => surf.lastSeen)) = some 5 := by
  decide

end ApiServer

end MidiRelayHub
